import Mathlib

/-!
Shallow embedding of the higress ingress conversion engine
(package `config`, file holding `IngressConfig`, plus the
`annotations` package parsers for local rate limits and downstream TLS).

Machine integers are modelled as `Int`/`Nat`; the `float32` arithmetic of
`normalizeWeightedCluster` is modelled exactly with an explicit IEEE-754
binary32 round-to-nearest-even model over numerator/denominator pairs of
naturals.  Fallible code returns `Except`/`Option`.  Go maps are modelled
as insertion-ordered association lists; where the source iterates over a
map (whose order Go leaves unspecified and randomizes), the enumeration
order is passed explicitly.
-/

namespace Higress

/-- Kinds of configuration objects; the source compares against the four
gvk constants and treats everything else as unsupported. -/
inductive GroupVersionKind where
  | Gateway
  | VirtualService
  | DestinationRule
  | EnvoyFilter
  | other (name : String)
deriving DecidableEq

/-- The unsupported-operation error `common.ErrUnsupportedOp`. -/
inductive StoreError where
  | errUnsupportedOp
deriving DecidableEq

/-- Whether the kind is one of the four supported by the store
(`gvk.Gateway`, `gvk.VirtualService`, `gvk.DestinationRule`,
`gvk.EnvoyFilter`). -/
def supportedKind : GroupVersionKind → Bool
  | .Gateway => true
  | .VirtualService => true
  | .DestinationRule => true
  | .EnvoyFilter => true
  | .other _ => false

/-- A namespace/name pair (`model.NamespacedName`). -/
structure NamespacedName where
  ns : String
  name : String
deriving DecidableEq

/-- Modelled from the spec: the string form of a namespaced name used as a
map key (namespace and name joined by a slash). -/
def NamespacedName.toKey (n : NamespacedName) : String :=
  n.ns ++ "/" ++ n.name

/-- A cluster-scoped namespace/name triple (`util.ClusterNamespacedName`). -/
structure ClusterNamespacedName where
  clusterId : String
  ns : String
  name : String
deriving DecidableEq

/-- Modelled from the spec: the string key of a cluster-scoped secret
identity, as stored in the watched-secret set. -/
def ClusterNamespacedName.toKey (c : ClusterNamespacedName) : String :=
  c.clusterId ++ "/" ++ c.ns ++ "/" ++ c.name

/-- A protobuf duration (`types.Duration`), seconds only as used here. -/
structure Duration where
  seconds : Int
deriving DecidableEq

/-- String matcher; the source file only ever constructs exact matches
(`networking.StringMatch_Exact`). -/
inductive StringMatch where
  | exact (value : String)
deriving DecidableEq

/-- An HTTP match rule (`networking.HTTPMatchRequest`): a URI matcher plus
header matchers.  The Go header map is modelled as an ordered list. -/
structure HTTPMatchRequest where
  uri : Option StringMatch
  headers : List (String × StringMatch)
deriving DecidableEq

/-- A destination service (`networking.Destination`). -/
structure Destination where
  host : String
  port : Nat
deriving DecidableEq

/-- A weighted route destination (`networking.HTTPRouteDestination`). -/
structure HTTPRouteDestination where
  destination : Destination
  weight : Int
deriving DecidableEq

/-- An HTTP route (`networking.HTTPRoute`), restricted to the fields the
embedded functions read or write.  The internal-active-redirect proto is
only ever tested for presence and cleared, so it is modelled as an opaque
marker. -/
structure HTTPRoute where
  name : String
  internalActiveRedirect : Option Unit
  matchRules : List HTTPMatchRequest
  route : List HTTPRouteDestination
deriving DecidableEq

/-- Basic-auth annotation fragment (`annotations` package): secret,
realm and the decoded credential list. -/
structure AuthConfig where
  authSecret : ClusterNamespacedName
  authRealm : String
  credentials : List String
deriving DecidableEq

/-- Fallback (error-page) annotation fragment: the default backend service
and port used by the internal-redirect splice. -/
structure FallbackConfig where
  defaultBackend : NamespacedName
  port : Nat
deriving DecidableEq

/-- TLS mode of a server (`networking.ServerTLSSettings_TLSmode`), as used
by the downstream-TLS parser. -/
inductive TLSMode where
  | simple
  | mutual
deriving DecidableEq

/-- Decoded downstream-TLS annotation fragment
(`annotations.DownstreamTLSConfig`).  Protocol versions are kept as the
raw validated strings. -/
structure DownstreamTLSConfig where
  tlsMinVersion : String
  tlsMaxVersion : String
  cipherSuites : List String
  mode : TLSMode
  caSecretName : NamespacedName
deriving DecidableEq

/-- Decoded local rate-limit annotation fragment
(`localRateLimitConfig`).  Values are uint32 in Go, modelled as `Nat`
reduced modulo `2 ^ 32` where overflow matters. -/
structure LocalRateLimitConfig where
  tokensPerFill : Nat
  maxTokens : Nat
  fillInterval : Duration
deriving DecidableEq

/-- The typed per-object decode result (`annotations.Ingress`), restricted
to the feature fragments the embedded passes read. -/
structure IngressAnnotations where
  clusterId : String
  auth : Option AuthConfig
  fallback : Option FallbackConfig
  downstreamTLS : Option DownstreamTLSConfig
  localRateLimit : Option LocalRateLimitConfig
deriving DecidableEq

/-- Object metadata (`config.Meta`), restricted to the read fields. -/
structure Meta where
  gvk : GroupVersionKind
  name : String
  ns : String
deriving DecidableEq

/-- One basic-auth rule (`common.Rule`). -/
structure Rule where
  realm : String
  matchRoute : List String
  credentials : List String
  encrypted : Bool
deriving DecidableEq

/-- The basic-auth rule set (`common.BasicAuthRules`). -/
structure BasicAuthRules where
  rules : List Rule
deriving DecidableEq

/-- The payload of a compiled object.  The basic-auth filter patch carries
both the marshaled rule bytes (the wasm plugin configuration string) and
the structured rule set they were produced from. -/
inductive ConfigSpec where
  | basicAuth (marshaled : String) (rules : BasicAuthRules)
deriving DecidableEq

/-- A compiled configuration object (`config.Config`). -/
structure Config where
  meta : Meta
  spec : ConfigSpec
deriving DecidableEq

/-- Pairs a source object with its decoded annotations
(`common.WrapperConfig`); only the metadata of the raw object is ever
read by the embedded passes. -/
structure WrapperConfig where
  config : Meta
  annotationsConfig : IngressAnnotations
deriving DecidableEq

/-- A route fragment (`common.WrapperHTTPRoute`) restricted to the fields
read by normalization, the redirect splice and filter derivation. -/
structure WrapperHTTPRoute where
  httpRoute : HTTPRoute
  wrapperConfig : WrapperConfig
  clusterId : String
  weightTotal : Int
deriving DecidableEq

/-- Event handlers are opaque to the engine; modelled as tokens. -/
abbrev EventHandler := Nat

/-- One per-cluster source adapter (`common.IngressController`), restricted
to what the embedded methods observe: the handlers forwarded to it and its
sync state. -/
structure Controller where
  registeredHandlers : List (GroupVersionKind × EventHandler)
  synced : Bool
deriving DecidableEq

/-- The engine state (`IngressConfig`), restricted to the fields the
embedded methods read or write. -/
structure IngressConfig where
  remoteIngressControllers : List Controller
  virtualServiceHandlers : List EventHandler
  gatewayHandlers : List EventHandler
  destinationRuleHandlers : List EventHandler
  envoyFilterHandlers : List EventHandler
  cachedEnvoyFilters : List Config
  watchedSecretSet : List String
  ns : String
deriving DecidableEq

/-- A downstream push request (`model.PushRequest`), restricted to the
fields the source sets: full flag, updated config keys (kind, name,
namespace) and trigger reasons. -/
structure PushRequest where
  full : Bool
  configsUpdated : List (GroupVersionKind × String × String)
  reason : List String
deriving DecidableEq

/-! ### Exact model of IEEE-754 binary32 rounding

`normalizeWeightedCluster` computes
`int32(float32(w) / float32(total) * 100)`.  Each float32 operation rounds
its exact rational value to the nearest binary32 value (ties to even);
the final conversion truncates toward zero.  The model below reproduces
this exactly for values in the normal range (all values arising from
int32 weights are normal); subnormal granularity and overflow to
infinity are not modelled.  Nonnegative rationals are carried as
numerator/denominator pairs of naturals so every step is plain `Nat`
arithmetic. -/

/-- Round `n / d` to the nearest natural, ties to even (`d > 0`). -/
def roundHalfEvenN (n d : Nat) : Nat :=
  let q := n / d
  let r := n % d
  if 2 * r < d then q
  else if d < 2 * r then q + 1
  else if q % 2 = 0 then q else q + 1

/-- Greatest binary32 exponent `e` with `2 ^ e ≤ n / d`, searched over the
binary32 exponent range; `n, d > 0` assumed. -/
def binadeExpN (n d : Nat) : Int :=
  match (List.range 277).findSome?
      (fun k =>
        let e : Int := 127 - (k : Int)
        let le := if 0 ≤ e then d * 2 ^ e.toNat ≤ n else d ≤ n * 2 ^ (-e).toNat
        if le then some e else none) with
  | some e => e
  | none => -149

/-- Round the nonnegative rational `n / d` (`d > 0`) to the nearest
binary32 value (24-bit significand, ties to even), returned as an exact
numerator/denominator pair. -/
def roundF32N (n d : Nat) : Nat × Nat :=
  if n = 0 then (0, 1)
  else
    let e := binadeExpN n d
    let m :=
      if e ≤ 23 then roundHalfEvenN (n * 2 ^ (23 - e).toNat) d
      else roundHalfEvenN n (d * 2 ^ (e - 23).toNat)
    if 23 ≤ e then (m * 2 ^ (e - 23).toNat, 1) else (m, 2 ^ (23 - e).toNat)

/-- Magnitude of `int32(float32(w) / float32(total) * 100)` for
nonnegative `w`, `total` (`total > 0`): float32-round each conversion,
the quotient and the product by 100, then truncate. -/
def f32PercentN (w total : Nat) : Nat :=
  let a := roundF32N w 1
  let b := roundF32N total 1
  if b.1 = 0 then 0
  else
    let q := roundF32N (a.1 * b.2) (a.2 * b.1)
    let p := roundF32N (q.1 * 100) q.2
    p.1 / p.2

/-- The per-destination weight computation of `normalizeWeightedCluster`:
`int32(float32(w) / float32(total) * 100)` with exact binary32 rounding at
each step; truncation toward zero and rounding are sign-symmetric, so the
sign is split off.  (For `total = 0` Go produces NaN and an unspecified
int32; the model yields 0 there.) -/
def f32Percent (w total : Int) : Int :=
  if (w < 0) = (total < 0) then (f32PercentN w.natAbs total.natAbs : Int)
  else -(f32PercentN w.natAbs total.natAbs : Int)

/-! ### Kernel-friendly string helpers

`String.endsWith` and `String.toNat?` do not reduce well inside the
kernel, so the Go `strings.HasSuffix` and `strconv.ParseUint` calls are
modelled on the underlying character lists. -/

/-- Whether `s` ends with `suffixStr` (`strings.HasSuffix`). -/
def strEndsWith (s suffixStr : String) : Bool :=
  List.isSuffixOf suffixStr.data s.data

/-- A decimal digit's value. -/
def charDigit? (c : Char) : Option Nat :=
  if 48 ≤ c.toNat ∧ c.toNat ≤ 57 then some (c.toNat - 48) else none

/-- Base-10 parse of a string as a natural (`strconv.ParseUint` shape:
nonempty, digits only). -/
def strToNat? (s : String) : Option Nat :=
  if s.data.isEmpty then none
  else
    s.data.foldl
      (fun acc c =>
        match acc, charDigit? c with
        | some n, some d => some (n * 10 + d)
        | _, _ => none)
      (some 0)

/-! ### Weight normalization (`normalizeWeightedCluster`) -/

/-- The weights of a route's destinations, in order. -/
def destWeights (route : WrapperHTTPRoute) : List Int :=
  route.httpRoute.route.map (fun d => d.weight)

/-- The divisor used by `normalizeWeightedCluster`: the declared sum of the
non-first destination weights, replaced by the route-level `WeightTotal`
when that declared sum is smaller. -/
def normalizedTotal (weightTotal : Int) (others : List HTTPRouteDestination) : Int :=
  let declared := (others.map (fun d => d.weight)).sum
  if declared < weightTotal then weightTotal else declared

/-- The second loop of `normalizeWeightedCluster`: every non-first
destination's weight becomes the float32 percentage of `total`. -/
def normalizeOthers (total : Int) (others : List HTTPRouteDestination) : List HTTPRouteDestination :=
  others.map (fun d => { d with weight := f32Percent d.weight total })

/-- The `normalizeWeightedCluster` pass, without the route-cache update side effect.
A route with exactly one destination gets weight 100 directly; otherwise
the non-first destinations are scaled and the first receives the
remainder to 100.  (With zero destinations the Go code would panic on
`Route[0]`; no such route reaches this pass.) -/
def normalizeWeightedCluster (route : WrapperHTTPRoute) : WrapperHTTPRoute :=
  match route.httpRoute.route with
  | [d] =>
      { route with httpRoute := { route.httpRoute with route := [{ d with weight := 100 }] } }
  | [] => route
  | first :: rest =>
      let total := normalizedTotal route.weightTotal rest
      let newRest := normalizeOthers total rest
      let s := (newRest.map (fun d => d.weight)).sum
      { route with httpRoute := { route.httpRoute with
          route := { first with weight := 100 - s } :: newRest } }

/-! ### Internal active redirect splice (`applyInternalActiveRedirect`) -/

/-- Modelled from the spec: the route-name suffix appended to the
synthesized fallback companion route (`annotations.FallbackRouteNameSuffix`,
constant not included in the provided sources; its value is irrelevant to
the claims). -/
def FallbackRouteNameSuffix : String := "-fallback"

/-- Modelled from the spec: correlation header carrying the redirect route
name (`annotations.FallbackInjectHeaderRouteName`; constant value not in
the provided sources). -/
def FallbackInjectHeaderRouteName : String := "x-higress-fallback-route-name"

/-- Modelled from the spec: correlation header carrying the fallback
service identity (`annotations.FallbackInjectFallbackService`; constant
value not in the provided sources). -/
def FallbackInjectFallbackService : String := "x-higress-fallback-service"

/-- Modelled from the spec: `util.CreateServiceFQDN` (not in the provided
sources), the in-cluster FQDN of a service. -/
def createServiceFQDN (ns name : String) : String :=
  name ++ "." ++ ns ++ ".svc.cluster.local"

/-- The companion route synthesized for a route carrying the
internal-redirect marker: a deep copy with the suffixed name, the marker
cleared, a single exact `/` match carrying the two correlation headers,
and a single destination at the fallback service and port with weight
100.  The Go literal sets only `HTTPRoute`, `WrapperConfig` and
`ClusterId` on the new wrapper, so `WeightTotal` is the zero value. -/
def fallbackRouteOf (route : WrapperHTTPRoute) (fb : FallbackConfig) : WrapperHTTPRoute :=
  let newName := route.httpRoute.name ++ FallbackRouteNameSuffix
  { httpRoute :=
      { route.httpRoute with
        name := newName
        internalActiveRedirect := none
        matchRules :=
          [{ uri := some (.exact "/")
             headers :=
               [(FallbackInjectHeaderRouteName, .exact newName),
                (FallbackInjectFallbackService, .exact fb.defaultBackend.toKey)] }]
        route :=
          [{ destination :=
               { host := createServiceFQDN fb.defaultBackend.ns fb.defaultBackend.name
                 port := fb.port }
             weight := 100 }] }
    wrapperConfig := route.wrapperConfig
    clusterId := route.clusterId
    weightTotal := 0 }

/-- One iteration of the `applyInternalActiveRedirect` loop body: the route
is appended to the accumulated list; if it carries the marker and its
object declares a fallback target, the companion route is prepended to
the front of the accumulated list; with a marker but no fallback target
the loop just continues. -/
def redirectStep (tempRoutes : List WrapperHTTPRoute) (route : WrapperHTTPRoute) :
    List WrapperHTTPRoute :=
  let tempRoutes := tempRoutes ++ [route]
  match route.httpRoute.internalActiveRedirect with
  | none => tempRoutes
  | some _ =>
      match route.wrapperConfig.annotationsConfig.fallback with
      | none => tempRoutes
      | some fb => fallbackRouteOf route fb :: tempRoutes

/-- The per-host body of `applyInternalActiveRedirect`. -/
def applyInternalActiveRedirectRoutes (routes : List WrapperHTTPRoute) : List WrapperHTTPRoute :=
  routes.foldl redirectStep []

/-- The `applyInternalActiveRedirect` pass over the host-keyed route map (modelled
as an ordered association list). -/
def applyInternalActiveRedirect (hostRoutes : List (String × List WrapperHTTPRoute)) :
    List (String × List WrapperHTTPRoute) :=
  hostRoutes.map (fun p => (p.1, applyInternalActiveRedirectRoutes p.2))

/-- The fallback companion routes a host's route list gives rise to, in
encounter order: one for each route that carries the internal-redirect
marker and whose object declares a fallback target. -/
def fallbackCompanions (routes : List WrapperHTTPRoute) : List WrapperHTTPRoute :=
  routes.filterMap (fun r =>
    match r.httpRoute.internalActiveRedirect, r.wrapperConfig.annotationsConfig.fallback with
    | some _, some fb => some (fallbackRouteOf r fb)
    | _, _ => none)

/-! ### Basic-auth filter derivation (`convertEnvoyFilter`) -/

/-- The grouping key of `convertEnvoyFilter`:
`auth.AuthSecret.String() + "/" + auth.AuthRealm`. -/
def authRuleKey (a : AuthConfig) : String :=
  a.authSecret.toKey ++ "/" ++ a.authRealm

/-- Insert one route into the rule mapping: the first occurrence of a key
creates a rule with that realm and credentials and the route name as sole
match target; a later occurrence appends the route name to the existing
rule's match list.  The Go map is modelled as an insertion-ordered
association list. -/
def addRouteAuth (mappings : List (String × Rule)) (key name : String) (a : AuthConfig) :
    List (String × Rule) :=
  match mappings with
  | [] => [(key, { realm := a.authRealm, matchRoute := [name],
                   credentials := a.credentials, encrypted := true })]
  | (k, r) :: rest =>
      if k = key then (k, { r with matchRoute := r.matchRoute ++ [name] }) :: rest
      else (k, r) :: addRouteAuth rest key name a

/-- The first loop of `convertEnvoyFilter`: group the routes carrying an
auth fragment by secret/realm key, skipping routes synthesized for
app-root redirection. -/
def buildAuthMappings (routes : List WrapperHTTPRoute) : List (String × Rule) :=
  routes.foldl
    (fun mappings route =>
      if strEndsWith route.httpRoute.name "app-root" then mappings
      else
        match route.wrapperConfig.annotationsConfig.auth with
        | none => mappings
        | some a => addRouteAuth mappings (authRuleKey a) route.httpRoute.name a)
    []

/-- Modelled from the spec: `common.CreateConvertedName` (not in the
provided sources), a deterministic join of name parts. -/
def createConvertedName (parts : List String) : String :=
  String.intercalate "-" (parts.filter (fun s => s ≠ ""))

/-- Serialization of one rule, order-preserving in the match list, standing
in for its JSON encoding. -/
def serializeRule (r : Rule) : String :=
  "(realm=" ++ r.realm ++ ";routes=" ++ String.intercalate "," r.matchRoute ++
    ";creds=" ++ String.intercalate "," r.credentials ++
    ";enc=" ++ (if r.encrypted then "true" else "false") ++ ")"

/-- Modelled from the spec: `json.Marshal` of the rule set (array order
preserved, as encoding/json does); it does not fail on these values. -/
def marshalBasicAuthRules (rules : BasicAuthRules) : Except String String :=
  .ok ("[" ++ String.intercalate "," (rules.rules.map serializeRule) ++ "]")

/-- Construction `constructBasicAuthEnvoyFilter`: marshal the rule set and wrap it in
the filter-patch object inserted at the fixed point of the proxy filter
chain.  The serialization steps that can fail (`json.Marshal`,
`anypb.New`, `util.MessageToGoGoStruct`) are modelled by the `marshal`
parameter. -/
def constructBasicAuthEnvoyFilter (marshal : BasicAuthRules → Except String String)
    (rules : BasicAuthRules) (ns : String) : Except String Config :=
  match marshal rules with
  | .error e => .error e
  | .ok bytes =>
      .ok { meta := { gvk := .EnvoyFilter
                      name := createConvertedName ["istio-ingressgateway", "basic-auth"]
                      ns := ns }
            spec := .basicAuth bytes rules }

/-- The `convertEnvoyFilter` pass: derive the basic-auth filter patch from the final
routes and unconditionally replace the cached filter list with this
pass's output.  `iterOrder` supplies the enumeration order of the Go rule
map, which the language leaves unspecified. -/
def convertEnvoyFilter (marshal : BasicAuthRules → Except String String)
    (iterOrder : List (String × Rule) → List (String × Rule))
    (routes : List WrapperHTTPRoute) (m : IngressConfig) : IngressConfig :=
  let mappings := buildAuthMappings routes
  let envoyFilters : List Config :=
    if 0 < mappings.length then
      match constructBasicAuthEnvoyFilter marshal
          ⟨(iterOrder mappings).map Prod.snd⟩ m.ns with
      | .error _ => []
      | .ok cfg => [cfg]
    else []
  { m with cachedEnvoyFilters := envoyFilters }

/-- The structured basic-auth rules carried by a compiled filter list. -/
def extractAuthRules (cfgs : List Config) : List Rule :=
  cfgs.foldr (fun c acc => match c.spec with | .basicAuth _ rules => rules.rules ++ acc) []

/-! ### Secret reflection (`ReflectSecretChanges`) -/

/-- The `ReflectSecretChanges` callback, returning the list of push requests issued via
`XDSUpdater.ConfigUpdate`, in call order. -/
def ReflectSecretChanges (m : IngressConfig) (c : ClusterNamespacedName) : List PushRequest :=
  if m.watchedSecretSet.contains c.toKey then
    [{ full := true
       configsUpdated := [(.VirtualService, c.name, c.ns)]
       reason := ["auth-secret-change"] },
     { full := true
       configsUpdated := [(.EnvoyFilter, c.name, c.ns)]
       reason := ["auth-secret-change"] }]
  else []

/-! ### The store interface (`List`, mutations, handlers, sync) -/

/-- The `List` method.  Gateway, virtual-service and destination-rule
outputs are produced by the conversion pipeline, which bottoms out in the
per-cluster adapters' convert methods (an interface implemented outside
the provided sources); those pipeline outputs are therefore passed as
arguments.  Go's `([]config.Config, error)` pair is kept as a pair. -/
def listConfigs (m : IngressConfig) (gatewayConfigs vsConfigs drConfigs : List Config)
    (typ : GroupVersionKind) (ns : String) : List Config × Option StoreError :=
  if supportedKind typ = false then ([], some .errUnsupportedOp)
  else if ns ≠ "" then ([], some .errUnsupportedOp)
  else
    match typ with
    | .EnvoyFilter => (m.cachedEnvoyFilters, none)
    | .Gateway => (gatewayConfigs, none)
    | .VirtualService => (vsConfigs, none)
    | .DestinationRule => (drConfigs, none)
    | .other _ => ([], some .errUnsupportedOp)

/-- The `Create` mutation entry point. -/
def Create (_ : Config) : String × Option StoreError :=
  ("", some .errUnsupportedOp)

/-- The `Update` mutation entry point. -/
def Update (_ : Config) : String × Option StoreError :=
  ("", some .errUnsupportedOp)

/-- The `UpdateStatus` mutation entry point. -/
def UpdateStatus (_ : Config) : String × Option StoreError :=
  ("", some .errUnsupportedOp)

/-- The `Patch` mutation entry point. -/
def Patch (_ : Config) (_ : Config → Config) : String × Option StoreError :=
  ("", some .errUnsupportedOp)

/-- The `Delete` mutation entry point. -/
def Delete (_ : GroupVersionKind) (_ _ : String) (_ : Option String) : Option StoreError :=
  some .errUnsupportedOp

/-- The `RegisterEventHandler` method: kinds outside the four supported ones return
before any state is touched; supported kinds append to the matching
handler list and forward the handler to every registered adapter. -/
def RegisterEventHandler (m : IngressConfig) (kind : GroupVersionKind) (f : EventHandler) :
    IngressConfig :=
  if kind ≠ .VirtualService ∧ kind ≠ .Gateway ∧
      kind ≠ .DestinationRule ∧ kind ≠ .EnvoyFilter then m
  else
    let m :=
      match kind with
      | .VirtualService =>
          { m with virtualServiceHandlers := m.virtualServiceHandlers ++ [f] }
      | .Gateway => { m with gatewayHandlers := m.gatewayHandlers ++ [f] }
      | .DestinationRule =>
          { m with destinationRuleHandlers := m.destinationRuleHandlers ++ [f] }
      | .EnvoyFilter => { m with envoyFilterHandlers := m.envoyFilterHandlers ++ [f] }
      | .other _ => m
    let forward := fun (c : Controller) =>
      { c with registeredHandlers := c.registeredHandlers ++ [(kind, f)] }
    { m with remoteIngressControllers := m.remoteIngressControllers.map forward }

/-- The `HasSynced` method: true exactly when every registered per-cluster adapter
reports synced. -/
def HasSynced (m : IngressConfig) : Bool :=
  m.remoteIngressControllers.all (fun c => c.synced)

/-! ### Annotation lookup helpers

The `Annotations` helper methods (`HasMSE`, `ParseUint32ForMSE`,
`ParseStringForMSE`, `ParseStringASAP`) live in a file of the repository
not included in the provided sources. -/

/-- Modelled from the spec: the raw annotation mapping, already resolved to
the relevant key under the recognized prefixes; `none` means the key is
absent. -/
def RawAnnotations : Type := String → Option String

/-- Modelled from the spec: presence of an annotation key
(`Annotations.HasMSE` / `HasASAP`). -/
def hasKey (a : RawAnnotations) (k : String) : Bool :=
  (a k).isSome

/-- Modelled from the spec: `Annotations.ParseUint32ForMSE` — the value
parsed as a base-10 uint32, failing when absent, non-numeric, or out of
range. -/
def parseUint32Of (a : RawAnnotations) (k : String) : Option Nat :=
  (a k).bind (fun s => (strToNat? s).bind (fun n => if n < 2 ^ 32 then some n else none))

/-! ### Local rate limit (`localRateLimit.Parse`) -/

/-- Annotation key `route-limit-rpm`. -/
def limitRPMKey : String := "route-limit-rpm"

/-- Annotation key `route-limit-rps`. -/
def limitRPSKey : String := "route-limit-rps"

/-- Annotation key `route-limit-burst-multiplier`. -/
def limitBurstMultiplierKey : String := "route-limit-burst-multiplier"

/-- The default burst multiplier. -/
def defaultBurstMultiplier : Nat := 5

/-- The fixed one-second refill interval. -/
def secondDur : Duration := { seconds := 1 }

/-- The fixed one-minute refill interval. -/
def minuteDur : Duration := { seconds := 60 }

/-- The guard `needLocalRateLimitConfig`: a per-minute or per-second rate annotation
is present. -/
def needLocalRateLimitConfig (a : RawAnnotations) : Bool :=
  hasKey a limitRPMKey || hasKey a limitRPSKey

/-- The burst multiplier: the parsed override when present and valid,
otherwise the default of 5. -/
def resolvedBurstMultiplier (a : RawAnnotations) : Nat :=
  (parseUint32Of a limitBurstMultiplierKey).getD defaultBurstMultiplier

/-- The parser `localRateLimit.Parse`, returning the fragment stored into
`config.localRateLimit` (`none` when no rate annotation is present or
neither rate parses).  uint32 multiplication wraps modulo `2 ^ 32`. -/
def localRateLimitParse (a : RawAnnotations) : Option LocalRateLimitConfig :=
  if needLocalRateLimitConfig a = false then none
  else
    let multiplier := resolvedBurstMultiplier a
    match parseUint32Of a limitRPMKey with
    | some rpm =>
        some { tokensPerFill := rpm
               maxTokens := (rpm * multiplier) % 2 ^ 32
               fillInterval := minuteDur }
    | none =>
        match parseUint32Of a limitRPSKey with
        | some rps =>
            some { tokensPerFill := rps
                   maxTokens := (rps * multiplier) % 2 ^ 32
                   fillInterval := secondDur }
        | none => none

/-! ### Downstream TLS (`downstreamTLS.Parse`) -/

/-- Annotation key `auth-tls-secret`. -/
def authTLSSecretKey : String := "auth-tls-secret"

/-- Annotation key `tls-min-protocol-version`. -/
def tlsMinVersionKey : String := "tls-min-protocol-version"

/-- Annotation key `tls-max-protocol-version`. -/
def tlsMaxVersionKey : String := "tls-max-protocol-version"

/-- Annotation key `ssl-cipher`. -/
def sslCipherKey : String := "ssl-cipher"

/-- The keys of the fixed `tlsProtocol` map. -/
def tlsProtocolVersions : List String :=
  ["TLSv1.0", "TLSv1.1", "TLSv1.2", "TLSv1.3"]

/-- Validation `isValidTLSProtocolVersion`: membership in the fixed enumerated map of
protocol versions. -/
def isValidTLSProtocolVersion (protocol : String) : Bool :=
  tlsProtocolVersions.contains protocol

/-- The guard `needDownstreamTLS`: some TLS-related annotation is present. -/
def needDownstreamTLS (a : RawAnnotations) : Bool :=
  hasKey a tlsMinVersionKey || hasKey a tlsMaxVersionKey ||
    hasKey a sslCipherKey || hasKey a authTLSSecretKey

/-- The `auth-tls-secret` block of `downstreamTLS.Parse`: on a well-formed
secret reference, record it (defaulting the namespace to the object's)
and switch the mode to MUTUAL; otherwise only log.  `splitNN` stands for
`util.SplitNamespacedName`, which is outside the provided sources. -/
def applyAuthTLSSecretStep (splitNN : String → NamespacedName) (a : RawAnnotations)
    (objectNs : String) (cfg : DownstreamTLSConfig) : DownstreamTLSConfig :=
  match a authTLSSecretKey with
  | none => cfg
  | some secretName =>
      let nn := splitNN secretName
      if nn.name = "" then cfg
      else
        let nn := if nn.ns = "" then { nn with ns := objectNs } else nn
        { cfg with caSecretName := nn, mode := .mutual }

/-- The min-protocol-version block: an unrecognized value is dropped
silently, leaving the field unset. -/
def applyTLSMinStep (a : RawAnnotations) (cfg : DownstreamTLSConfig) : DownstreamTLSConfig :=
  match a tlsMinVersionKey with
  | some v => if isValidTLSProtocolVersion v then { cfg with tlsMinVersion := v } else cfg
  | none => cfg

/-- The max-protocol-version block, symmetric to the min block. -/
def applyTLSMaxStep (a : RawAnnotations) (cfg : DownstreamTLSConfig) : DownstreamTLSConfig :=
  match a tlsMaxVersionKey with
  | some v => if isValidTLSProtocolVersion v then { cfg with tlsMaxVersion := v } else cfg
  | none => cfg

/-- The cipher-suite block: split on ":" and keep the valid suites.
`isValidCipher` stands for `security.IsValidCipherSuite` (istio,
external). -/
def applyCipherStep (isValidCipher : String → Bool) (a : RawAnnotations)
    (cfg : DownstreamTLSConfig) : DownstreamTLSConfig :=
  match a sslCipherKey with
  | some raw => { cfg with cipherSuites := (raw.splitOn ":").filter isValidCipher }
  | none => cfg

/-- The zero-valued config `downstreamTLS.Parse` starts from, with mode
SIMPLE. -/
def initialDownstreamTLSConfig : DownstreamTLSConfig :=
  { tlsMinVersion := ""
    tlsMaxVersion := ""
    cipherSuites := []
    mode := .simple
    caSecretName := { ns := "", name := "" } }

/-- The parser `downstreamTLS.Parse`: mirrors the Go method, which always returns a
nil error; the produced fragment is `none` when no TLS annotation is
present. -/
def downstreamTLSParse (splitNN : String → NamespacedName) (isValidCipher : String → Bool)
    (a : RawAnnotations) (objectNs : String) :
    Except String (Option DownstreamTLSConfig) :=
  if needDownstreamTLS a = false then .ok none
  else
    let cfg := initialDownstreamTLSConfig
    let cfg := applyAuthTLSSecretStep splitNN a objectNs cfg
    let cfg := applyTLSMinStep a cfg
    let cfg := applyTLSMaxStep a cfg
    let cfg := applyCipherStep isValidCipher a cfg
    .ok (some cfg)

/-! ### Concrete inputs used by witnesses and counterexamples -/

/-- An annotation fragment with no feature configs. -/
def emptyIngressAnnotations : IngressAnnotations :=
  { clusterId := "", auth := none, fallback := none,
    downstreamTLS := none, localRateLimit := none }

/-- A wrapper around a plain ingress object. -/
def plainWrapper : WrapperConfig :=
  { config := { gvk := .VirtualService, name := "ing", ns := "default" }
    annotationsConfig := emptyIngressAnnotations }

/-- An engine state with no adapters, caches or handlers. -/
def emptyIngressConfig : IngressConfig :=
  { remoteIngressControllers := []
    virtualServiceHandlers := []
    gatewayHandlers := []
    destinationRuleHandlers := []
    envoyFilterHandlers := []
    cachedEnvoyFilters := []
    watchedSecretSet := []
    ns := "istio-system" }

/-- A weighted destination at the given service. -/
def destOf (host : String) (w : Int) : HTTPRouteDestination :=
  { destination := { host := host, port := 80 }, weight := w }

/-- A route with two destinations declared 47/53 and route-level weight
total 100. -/
def cxRouteC1 : WrapperHTTPRoute :=
  { httpRoute := { name := "route-a", internalActiveRedirect := none,
                   matchRules := [], route := [destOf "svc-a" 47, destOf "svc-b" 53] }
    wrapperConfig := plainWrapper
    clusterId := ""
    weightTotal := 100 }

/-- First destination of the spec's 30/30/30 example. -/
def exDest1 : HTTPRouteDestination := destOf "svc-a" 30

/-- Second destination of the spec's 30/30/30 example. -/
def exDest2 : HTTPRouteDestination := destOf "svc-b" 30

/-- Third destination of the spec's 30/30/30 example. -/
def exDest3 : HTTPRouteDestination := destOf "svc-c" 30

/-- The spec's example: three destinations declared 30/30/30 with
route-level weight total 100. -/
def exRouteC1 : WrapperHTTPRoute :=
  { httpRoute := { name := "route-ex", internalActiveRedirect := none,
                   matchRules := [], route := [exDest1, exDest2, exDest3] }
    wrapperConfig := plainWrapper
    clusterId := ""
    weightTotal := 100 }

/-- A basic-auth fragment. -/
def authC2 : AuthConfig :=
  { authSecret := { clusterId := "c1", ns := "ns1", name := "sec1" }
    authRealm := "realm1"
    credentials := ["user1:pass1"] }

/-- A route carrying the basic-auth fragment. -/
def authRouteC2 : WrapperHTTPRoute :=
  { httpRoute := { name := "route-auth", internalActiveRedirect := none,
                   matchRules := [], route := [destOf "svc-auth" 100] }
    wrapperConfig := { config := { gvk := .VirtualService, name := "ing-auth", ns := "default" }
                       annotationsConfig := { emptyIngressAnnotations with auth := some authC2 } }
    clusterId := "c1"
    weightTotal := 0 }

/-- A previously cached basic-auth filter patch. -/
def staleFilterC2 : Config :=
  { meta := { gvk := .EnvoyFilter, name := "istio-ingressgateway-basic-auth", ns := "istio-system" }
    spec := .basicAuth "old-bytes" { rules := [] } }

/-- An engine state whose filter cache holds the previous pass's patch. -/
def mC2 : IngressConfig :=
  { emptyIngressConfig with cachedEnvoyFilters := [staleFilterC2] }

/-- A failing serialization, standing for a `json.Marshal`/proto error. -/
def marshalFailC2 : BasicAuthRules → Except String String :=
  fun _ => .error "marshal failure"

/-- The route set of the failing filter pass. -/
def routesC2 : List WrapperHTTPRoute := [authRouteC2]

/-- A fallback target. -/
def fbC3 : FallbackConfig :=
  { defaultBackend := { ns := "default", name := "fb-svc" }, port := 8080 }

/-- A plain route with no internal-redirect marker. -/
def r1C3 : WrapperHTTPRoute :=
  { httpRoute := { name := "route-one", internalActiveRedirect := none,
                   matchRules := [], route := [destOf "svc-one" 100] }
    wrapperConfig := plainWrapper
    clusterId := ""
    weightTotal := 0 }

/-- A route carrying the internal-redirect marker whose object declares a
fallback target. -/
def r2C3 : WrapperHTTPRoute :=
  { httpRoute := { name := "route-two", internalActiveRedirect := some (),
                   matchRules := [], route := [destOf "svc-two" 100] }
    wrapperConfig := { config := { gvk := .VirtualService, name := "ing-fb", ns := "default" }
                       annotationsConfig := { emptyIngressAnnotations with fallback := some fbC3 } }
    clusterId := ""
    weightTotal := 0 }

/-- A watched secret identity. -/
def cC4 : ClusterNamespacedName := { clusterId := "c1", ns := "ns1", name := "sec1" }

/-- An engine state watching exactly that secret. -/
def mC4 : IngressConfig :=
  { emptyIngressConfig with watchedSecretSet := [cC4.toKey] }

/-- Some configuration object, input to the mutation entry points. -/
def cfgC5 : Config :=
  { meta := { gvk := .Gateway, name := "gw", ns := "default" }
    spec := .basicAuth "" { rules := [] } }

/-- A second basic-auth fragment with a different secret/realm key. -/
def authC6 : AuthConfig :=
  { authSecret := { clusterId := "c1", ns := "ns1", name := "sec2" }
    authRealm := "realmB"
    credentials := ["user2:pass2"] }

/-- A route carrying the second basic-auth fragment. -/
def authRouteC6 : WrapperHTTPRoute :=
  { httpRoute := { name := "route-auth-b", internalActiveRedirect := none,
                   matchRules := [], route := [destOf "svc-auth-b" 100] }
    wrapperConfig := { config := { gvk := .VirtualService, name := "ing-auth-b", ns := "default" }
                       annotationsConfig := { emptyIngressAnnotations with auth := some authC6 } }
    clusterId := "c1"
    weightTotal := 0 }

/-- Two routes whose auth fragments land in two distinct rule-map keys. -/
def routesC6 : List WrapperHTTPRoute := [authRouteC2, authRouteC6]

/-- Annotations declaring a per-minute rate of 2 and a per-second rate of
7, with no burst-multiplier override. -/
def aC7 : RawAnnotations := fun k =>
  if k = limitRPMKey then some "2"
  else if k = limitRPSKey then some "7"
  else none

/-- Annotations declaring unrecognized TLS min and max protocol
versions. -/
def aC8 : RawAnnotations := fun k =>
  if k = tlsMinVersionKey then some "TLSv9.9"
  else if k = tlsMaxVersionKey then some "SSLv3"
  else none

/-- A concrete stand-in for `util.SplitNamespacedName`. -/
def splitNNC8 : String → NamespacedName := fun s => { ns := "", name := s }

/-- A concrete stand-in for `security.IsValidCipherSuite`. -/
def validCipherC8 : String → Bool := fun _ => true

/-- An engine state with one adapter and one registered handler. -/
def mC9 : IngressConfig :=
  { emptyIngressConfig with
      remoteIngressControllers := [{ registeredHandlers := [], synced := false }]
      virtualServiceHandlers := [7] }

/-! ## Theorems -/

/-- C1 counterexample: on declared weights 47/53 with route-level weight
total 100 the code produces 48/52, whereas the claim's
`round_down(weight / total * 100)` formula predicts 47/53: the float32
computation `int32(float32(53) / float32(100) * 100)` yields 52, one below
the exact `round_down` value 53. -/
theorem normalizeWeightedCluster_roundDown_cx :
    destWeights (normalizeWeightedCluster cxRouteC1) = [48, 52] ∧
    (100 - 53 * 100 / 100, 53 * 100 / 100) = ((47 : Int), (53 : Int)) ∧
    destWeights (normalizeWeightedCluster cxRouteC1) ≠ [47, 53] := by
  refine ⟨by decide, by decide, by decide⟩

/-- C1 (amended): after `normalizeWeightedCluster`, a route with exactly
one destination has weight exactly 100; for more than one destination,
each non-first destination's weight becomes the float32-rounded
truncation `int32(float32(w) / float32(total) * 100)` — which can differ
from exact `round_down(w * 100 / total)` by one — with `total` the
declared sum of non-first weights or the route-level `WeightTotal` when
that sum is smaller, the first destination is set to 100 minus the sum of
the others, and the weights sum to exactly 100. -/
theorem normalizeWeightedCluster_amended (route : WrapperHTTPRoute) :
    (∀ d, route.httpRoute.route = [d] →
        destWeights (normalizeWeightedCluster route) = [100]) ∧
    (∀ first b rest, route.httpRoute.route = first :: b :: rest →
        (normalizeWeightedCluster route).httpRoute.route =
          { first with weight :=
              100 - ((normalizeOthers (normalizedTotal route.weightTotal (b :: rest)) (b :: rest)).map (fun d => d.weight)).sum } ::
            normalizeOthers (normalizedTotal route.weightTotal (b :: rest)) (b :: rest) ∧
        (destWeights (normalizeWeightedCluster route)).sum = 100) := by
  constructor
  · intro d h
    simp [normalizeWeightedCluster, destWeights, h]
  · intro first b rest h
    have hroute : (normalizeWeightedCluster route).httpRoute.route =
        { first with weight :=
            100 - ((normalizeOthers (normalizedTotal route.weightTotal (b :: rest)) (b :: rest)).map (fun d => d.weight)).sum } ::
          normalizeOthers (normalizedTotal route.weightTotal (b :: rest)) (b :: rest) := by
      simp [normalizeWeightedCluster, h]
    refine ⟨hroute, ?_⟩
    rw [destWeights, hroute]
    simp [List.sum_cons]

/-- C1 witness: the spec's example — declared weights 30/30/30 on total
100 normalize to 40/30/30 and sum to 100. -/
theorem normalizeWeightedCluster_amended_witness :
    destWeights (normalizeWeightedCluster exRouteC1) = [40, 30, 30] ∧
    (destWeights (normalizeWeightedCluster exRouteC1)).sum = 100 :=
  ⟨by decide,
   ((normalizeWeightedCluster_amended exRouteC1).2 exDest1 exDest2 [exDest3] rfl).2⟩

/-- C2 counterexample: with a nonempty previously cached filter list and a
failing filter-patch construction, the pass changes the cached state
observable through `List(EnvoyFilter)` (it becomes empty), contradicting
"the previously cached filter patches remain in effect". -/
theorem convertEnvoyFilter_stale_cache_cx :
    mC2.cachedEnvoyFilters = [staleFilterC2] ∧
    (listConfigs (convertEnvoyFilter marshalFailC2 id routesC2 mC2) [] [] [] .EnvoyFilter "").1 ≠
      (listConfigs mC2 [] [] [] .EnvoyFilter "").1 := by
  refine ⟨by decide, by decide⟩

/-- C2 (amended): when construction of the basic-auth filter patch fails
during filter derivation, that pass's filter output is omitted and the
filter cache is replaced by this pass's (empty) output, so
`List(EnvoyFilter)` afterwards returns the empty list — the previously
cached filter patches are dropped, not retained. -/
theorem convertEnvoyFilter_error_replaces_cache
    (marshal : BasicAuthRules → Except String String)
    (iterOrder : List (String × Rule) → List (String × Rule))
    (routes : List WrapperHTTPRoute) (m : IngressConfig)
    (h : ∃ e, constructBasicAuthEnvoyFilter marshal
        ⟨(iterOrder (buildAuthMappings routes)).map Prod.snd⟩ m.ns = .error e) :
    (convertEnvoyFilter marshal iterOrder routes m).cachedEnvoyFilters = [] ∧
    listConfigs (convertEnvoyFilter marshal iterOrder routes m) [] [] [] .EnvoyFilter "" =
      ([], none) := by
  obtain ⟨e, he⟩ := h
  have h1 : (convertEnvoyFilter marshal iterOrder routes m).cachedEnvoyFilters = [] := by
    simp only [convertEnvoyFilter]
    split
    · rw [he]
    · rfl
  exact ⟨h1, by simp [listConfigs, supportedKind, h1]⟩

/-- C2 witness: a concrete failing construction leaves an empty filter
cache. -/
theorem convertEnvoyFilter_error_replaces_cache_witness :
    (convertEnvoyFilter marshalFailC2 id routesC2 mC2).cachedEnvoyFilters = [] :=
  (convertEnvoyFilter_error_replaces_cache marshalFailC2 id routesC2 mC2
    ⟨"marshal failure", rfl⟩).1

/-- Generalized accumulator form of the redirect-splice loop: companions
collect at the front of the accumulated list, in reverse encounter
order. -/
theorem redirect_foldl_general (routes : List WrapperHTTPRoute) :
    ∀ acc, routes.foldl redirectStep acc = (fallbackCompanions routes).reverse ++ acc ++ routes := by
  induction routes with
  | nil => intro acc; simp [fallbackCompanions]
  | cons r rs ih =>
      intro acc
      rw [List.foldl_cons, ih]
      cases hm : r.httpRoute.internalActiveRedirect with
      | none =>
          simp [redirectStep, hm, fallbackCompanions, List.filterMap_cons, List.append_assoc]
      | some u =>
          cases hf : r.wrapperConfig.annotationsConfig.fallback with
          | none =>
              simp [redirectStep, hm, hf, fallbackCompanions, List.filterMap_cons,
                List.append_assoc]
          | some fb =>
              simp [redirectStep, hm, hf, fallbackCompanions, List.filterMap_cons,
                List.append_assoc]

/-- C3 counterexample: with a preceding unrelated route, the synthesized
companion is placed at the front of the host's route list, not
immediately before the triggering route. -/
theorem applyInternalActiveRedirect_placement_cx :
    applyInternalActiveRedirectRoutes [r1C3, r2C3] =
      [fallbackRouteOf r2C3 fbC3, r1C3, r2C3] ∧
    applyInternalActiveRedirectRoutes [r1C3, r2C3] ≠
      [r1C3, fallbackRouteOf r2C3 fbC3, r2C3] := by
  refine ⟨by decide, by decide⟩

/-- C3 (amended): the fallback splice pass synthesizes, for every route
carrying the internal-redirect marker whose object declares a fallback
target, the companion route `fallbackRouteOf` (a copy with an exact `/`
URI match, the two exact-match correlation headers and a single
destination at the fallback service and port with weight 100), and
prepends the companions to the front of the host's route list (in
reverse encounter order) rather than immediately before each triggering
route; the original routes are preserved unchanged and in order, and a
marker without a fallback target adds nothing and does not fail. -/
theorem applyInternalActiveRedirect_amended (routes : List WrapperHTTPRoute) :
    applyInternalActiveRedirectRoutes routes = (fallbackCompanions routes).reverse ++ routes := by
  have h := redirect_foldl_general routes []
  simpa [applyInternalActiveRedirectRoutes] using h

/-- C4 counterexample: a watched secret triggers two push requests — one
per affected kind — not exactly one push covering both kinds. -/
theorem ReflectSecretChanges_single_push_cx :
    (ReflectSecretChanges mC4 cC4).length = 2 ∧
    (ReflectSecretChanges mC4 cC4).length ≠ 1 := by
  refine ⟨by decide, by decide⟩

/-- C4 (amended): on a secret-change notification, a secret outside the
watched set produces no push; a watched secret produces exactly two full
pushes, the first for VirtualService and the second for EnvoyFilter, and
none for any other kind. -/
theorem ReflectSecretChanges_amended (m : IngressConfig) (c : ClusterNamespacedName) :
    (m.watchedSecretSet.contains c.toKey = false → ReflectSecretChanges m c = []) ∧
    (m.watchedSecretSet.contains c.toKey = true →
      ReflectSecretChanges m c =
        [{ full := true, configsUpdated := [(.VirtualService, c.name, c.ns)],
           reason := ["auth-secret-change"] },
         { full := true, configsUpdated := [(.EnvoyFilter, c.name, c.ns)],
           reason := ["auth-secret-change"] }]) := by
  constructor <;> intro h <;>
    · unfold ReflectSecretChanges
      rw [h]
      simp

/-- C4 witness: a concrete watched secret yields the two pushes; the same
secret against an empty watched set yields none. -/
theorem ReflectSecretChanges_amended_witness :
    ReflectSecretChanges mC4 cC4 =
      [{ full := true, configsUpdated := [(.VirtualService, cC4.name, cC4.ns)],
         reason := ["auth-secret-change"] },
       { full := true, configsUpdated := [(.EnvoyFilter, cC4.name, cC4.ns)],
         reason := ["auth-secret-change"] }] ∧
    ReflectSecretChanges emptyIngressConfig cC4 = [] :=
  ⟨(ReflectSecretChanges_amended mC4 cC4).2 (by decide),
   (ReflectSecretChanges_amended emptyIngressConfig cC4).1 (by decide)⟩

/-- C5: `List` returns the unsupported-operation error and an empty result
for every kind outside the four supported kinds and for every non-empty
namespace, and every mutation entry point (`Create`, `Update`,
`UpdateStatus`, `Patch`, `Delete`) fails unconditionally with the same
error for every input. -/
theorem listConfigs_unsupported_spec (m : IngressConfig) (g v d : List Config)
    (typ : GroupVersionKind) (ns : String) (c : Config) (pf : Config → Config)
    (k : GroupVersionKind) (nm ns2 : String) (rv : Option String) :
    (supportedKind typ = false →
      listConfigs m g v d typ ns = ([], some .errUnsupportedOp)) ∧
    (ns ≠ "" → listConfigs m g v d typ ns = ([], some .errUnsupportedOp)) ∧
    Create c = ("", some .errUnsupportedOp) ∧
    Update c = ("", some .errUnsupportedOp) ∧
    UpdateStatus c = ("", some .errUnsupportedOp) ∧
    Patch c pf = ("", some .errUnsupportedOp) ∧
    Delete k nm ns2 rv = some .errUnsupportedOp := by
  refine ⟨?_, ?_, rfl, rfl, rfl, rfl, rfl⟩
  · intro h
    unfold listConfigs
    rw [if_pos h]
  · intro h
    simp [listConfigs, h]

/-- C5 witness: an unsupported kind, a non-empty namespace and concrete
mutation calls all fail with the unsupported-operation error. -/
theorem listConfigs_unsupported_spec_witness :
    listConfigs emptyIngressConfig [] [] [] (.other "WasmPlugin") "" =
      ([], some .errUnsupportedOp) ∧
    listConfigs emptyIngressConfig [] [] [] .Gateway "default" =
      ([], some .errUnsupportedOp) ∧
    Create cfgC5 = ("", some .errUnsupportedOp) ∧
    Delete .Gateway "name" "ns" none = some .errUnsupportedOp :=
  ⟨(listConfigs_unsupported_spec emptyIngressConfig [] [] [] (.other "WasmPlugin") ""
      cfgC5 id .Gateway "name" "ns" none).1 rfl,
   (listConfigs_unsupported_spec emptyIngressConfig [] [] [] .Gateway "default"
      cfgC5 id .Gateway "name" "ns" none).2.1 (by decide),
   (listConfigs_unsupported_spec emptyIngressConfig [] [] [] .Gateway "default"
      cfgC5 id .Gateway "name" "ns" none).2.2.1,
   (listConfigs_unsupported_spec emptyIngressConfig [] [] [] .Gateway "default"
      cfgC5 id .Gateway "name" "ns" none).2.2.2.2.2.2⟩

/-- C6 counterexample: with two basic-auth rules, two legitimate
enumeration orders of the unordered Go rule map (Go randomizes map
iteration) make `List(EnvoyFilter)` return byte-different compiled
contents for the same input object set, refuting strict run-to-run
byte-identity. -/
theorem convertPipeline_determinism_cx :
    ((buildAuthMappings routesC6).reverse).Perm (buildAuthMappings routesC6) ∧
    (listConfigs (convertEnvoyFilter marshalBasicAuthRules id routesC6 emptyIngressConfig)
        [] [] [] .EnvoyFilter "").1 ≠
      (listConfigs (convertEnvoyFilter marshalBasicAuthRules (fun l => l.reverse) routesC6
          emptyIngressConfig) [] [] [] .EnvoyFilter "").1 :=
  ⟨List.reverse_perm _, by decide⟩

/-- C6 (amended): re-running the filter derivation on an unchanged object
set is deterministic up to the iteration order of the internal rule map:
the compiled object names agree exactly and the derived basic-auth rules
agree up to permutation, for any two enumerations of the rule map. -/
theorem convertEnvoyFilter_perm_amended (routes : List WrapperHTTPRoute) (m : IngressConfig)
    (iter1 iter2 : List (String × Rule) → List (String × Rule))
    (h1 : (iter1 (buildAuthMappings routes)).Perm (buildAuthMappings routes))
    (h2 : (iter2 (buildAuthMappings routes)).Perm (buildAuthMappings routes)) :
    (convertEnvoyFilter marshalBasicAuthRules iter1 routes m).cachedEnvoyFilters.map
        (fun c => c.meta.name) =
      (convertEnvoyFilter marshalBasicAuthRules iter2 routes m).cachedEnvoyFilters.map
        (fun c => c.meta.name) ∧
    (extractAuthRules (convertEnvoyFilter marshalBasicAuthRules iter1 routes m).cachedEnvoyFilters).Perm
      (extractAuthRules (convertEnvoyFilter marshalBasicAuthRules iter2 routes m).cachedEnvoyFilters) := by
  have hcache : ∀ iter : List (String × Rule) → List (String × Rule),
      (convertEnvoyFilter marshalBasicAuthRules iter routes m).cachedEnvoyFilters =
        if 0 < (buildAuthMappings routes).length then
          [{ meta := { gvk := .EnvoyFilter
                       name := createConvertedName ["istio-ingressgateway", "basic-auth"]
                       ns := m.ns }
             spec := .basicAuth
               ("[" ++ String.intercalate ","
                 ((⟨(iter (buildAuthMappings routes)).map Prod.snd⟩ : BasicAuthRules).rules.map serializeRule) ++ "]")
               ⟨(iter (buildAuthMappings routes)).map Prod.snd⟩ }]
        else [] := fun iter => rfl
  rw [hcache iter1, hcache iter2]
  by_cases hlen : 0 < (buildAuthMappings routes).length
  · rw [if_pos hlen, if_pos hlen]
    constructor
    · rfl
    · simp only [extractAuthRules, List.foldr]
      simpa using (h1.map Prod.snd).trans (h2.map Prod.snd).symm
  · rw [if_neg hlen, if_neg hlen]
    exact ⟨rfl, List.Perm.refl _⟩

/-- C6 witness: on the two-rule input, the identity enumeration and the
reversed enumeration produce rule sets that are permutations of each
other. -/
theorem convertEnvoyFilter_perm_amended_witness :
    (extractAuthRules
        (convertEnvoyFilter marshalBasicAuthRules id routesC6 emptyIngressConfig).cachedEnvoyFilters).Perm
      (extractAuthRules
        (convertEnvoyFilter marshalBasicAuthRules (fun l => l.reverse) routesC6
            emptyIngressConfig).cachedEnvoyFilters) :=
  (convertEnvoyFilter_perm_amended routesC6 emptyIngressConfig id (fun l => l.reverse)
    (List.Perm.refl _) (List.reverse_perm _)).2

/-- Convenience fact: a successful uint32 parse implies the key is
present. -/
theorem parseUint32Of_isSome {a : RawAnnotations} {k : String} {n : Nat}
    (h : parseUint32Of a k = some n) : hasKey a k = true := by
  unfold parseUint32Of at h
  unfold hasKey
  cases hk : a k with
  | none => rw [hk] at h; simp at h
  | some s => rfl

/-- C7: rate-limit annotation decoding uses a burst multiplier defaulting
to 5 and overridable by annotation; a per-minute rate yields
`max_tokens = rate * multiplier`, tokens-per-fill = rate and a one-minute
fill interval regardless of any per-second annotation (per-minute takes
precedence); only when no per-minute rate parses does a per-second rate
yield the same shape with a one-second interval. -/
theorem localRateLimitParse_spec (a : RawAnnotations) (rpm rps mult : Nat) :
    (a limitBurstMultiplierKey = none → resolvedBurstMultiplier a = 5) ∧
    (parseUint32Of a limitRPMKey = some rpm → resolvedBurstMultiplier a = mult →
      rpm * mult < 2 ^ 32 →
      localRateLimitParse a =
        some { tokensPerFill := rpm, maxTokens := rpm * mult, fillInterval := minuteDur }) ∧
    (parseUint32Of a limitRPMKey = none → parseUint32Of a limitRPSKey = some rps →
      resolvedBurstMultiplier a = mult → rps * mult < 2 ^ 32 →
      localRateLimitParse a =
        some { tokensPerFill := rps, maxTokens := rps * mult, fillInterval := secondDur }) := by
  refine ⟨?_, ?_, ?_⟩
  · intro h
    unfold resolvedBurstMultiplier parseUint32Of
    rw [h]
    rfl
  · intro hp hm hlt
    have hneed : needLocalRateLimitConfig a = true := by
      unfold needLocalRateLimitConfig
      rw [parseUint32Of_isSome hp]
      rfl
    simp [localRateLimitParse, hneed, hp, hm, Nat.mod_eq_of_lt hlt]
    omega
  · intro hnone hps hm hlt
    have hneed : needLocalRateLimitConfig a = true := by
      unfold needLocalRateLimitConfig
      rw [parseUint32Of_isSome hps]
      simp
    simp [localRateLimitParse, hneed, hnone, hps, hm, Nat.mod_eq_of_lt hlt]
    omega

/-- C7 witness: annotations with both a per-minute rate of 2 and a
per-second rate of 7 and no multiplier override decode to
tokens-per-fill 2, max-tokens 10 and a one-minute interval — the
per-minute rate wins and the per-second value is ignored. -/
theorem localRateLimitParse_spec_witness :
    localRateLimitParse aC7 =
      some { tokensPerFill := 2, maxTokens := 10, fillInterval := minuteDur } :=
  (localRateLimitParse_spec aC7 2 7 5).2.1 (by decide) (by decide) (by decide)

/-- Frame fact: the secret step never writes the min-version field. -/
theorem applyAuthTLSSecretStep_min (splitNN : String → NamespacedName)
    (a : RawAnnotations) (objectNs : String) (cfg : DownstreamTLSConfig) :
    (applyAuthTLSSecretStep splitNN a objectNs cfg).tlsMinVersion = cfg.tlsMinVersion := by
  unfold applyAuthTLSSecretStep
  cases a authTLSSecretKey with
  | none => rfl
  | some s =>
      dsimp only
      split
      · rfl
      · rfl

/-- Frame fact: the secret step never writes the max-version field. -/
theorem applyAuthTLSSecretStep_max (splitNN : String → NamespacedName)
    (a : RawAnnotations) (objectNs : String) (cfg : DownstreamTLSConfig) :
    (applyAuthTLSSecretStep splitNN a objectNs cfg).tlsMaxVersion = cfg.tlsMaxVersion := by
  unfold applyAuthTLSSecretStep
  cases a authTLSSecretKey with
  | none => rfl
  | some s =>
      dsimp only
      split
      · rfl
      · rfl

/-- Frame fact: the min-version step never writes the max-version field. -/
theorem applyTLSMinStep_max (a : RawAnnotations) (cfg : DownstreamTLSConfig) :
    (applyTLSMinStep a cfg).tlsMaxVersion = cfg.tlsMaxVersion := by
  unfold applyTLSMinStep
  cases a tlsMinVersionKey with
  | none => rfl
  | some s =>
      dsimp only
      split
      · rfl
      · rfl

/-- Frame fact: the max-version step never writes the min-version field. -/
theorem applyTLSMaxStep_min (a : RawAnnotations) (cfg : DownstreamTLSConfig) :
    (applyTLSMaxStep a cfg).tlsMinVersion = cfg.tlsMinVersion := by
  unfold applyTLSMaxStep
  cases a tlsMaxVersionKey with
  | none => rfl
  | some s =>
      dsimp only
      split
      · rfl
      · rfl

/-- Frame fact: the cipher step never writes the min-version field. -/
theorem applyCipherStep_min (isValidCipher : String → Bool) (a : RawAnnotations)
    (cfg : DownstreamTLSConfig) :
    (applyCipherStep isValidCipher a cfg).tlsMinVersion = cfg.tlsMinVersion := by
  unfold applyCipherStep
  cases a sslCipherKey <;> rfl

/-- Frame fact: the cipher step never writes the max-version field. -/
theorem applyCipherStep_max (isValidCipher : String → Bool) (a : RawAnnotations)
    (cfg : DownstreamTLSConfig) :
    (applyCipherStep isValidCipher a cfg).tlsMaxVersion = cfg.tlsMaxVersion := by
  unfold applyCipherStep
  cases a sslCipherKey <;> rfl

/-- An unrecognized min version is dropped: the step is the identity. -/
theorem applyTLSMinStep_invalid (a : RawAnnotations) (cfg : DownstreamTLSConfig)
    (v : String) (hv : a tlsMinVersionKey = some v)
    (hbad : isValidTLSProtocolVersion v = false) :
    applyTLSMinStep a cfg = cfg := by
  unfold applyTLSMinStep
  rw [hv]
  simp [hbad]

/-- An unrecognized max version is dropped: the step is the identity. -/
theorem applyTLSMaxStep_invalid (a : RawAnnotations) (cfg : DownstreamTLSConfig)
    (v : String) (hv : a tlsMaxVersionKey = some v)
    (hbad : isValidTLSProtocolVersion v = false) :
    applyTLSMaxStep a cfg = cfg := by
  unfold applyTLSMaxStep
  rw [hv]
  simp [hbad]

/-- C8: TLS protocol-version annotation values are validated against the
fixed set; `downstreamTLS.Parse` never returns an error, and an
unrecognized min or max version leaves the corresponding config field
unset. -/
theorem downstreamTLSParse_spec (splitNN : String → NamespacedName)
    (isValidCipher : String → Bool) (a : RawAnnotations) (objectNs : String)
    (v w : String) :
    (∃ r, downstreamTLSParse splitNN isValidCipher a objectNs = .ok r) ∧
    (a tlsMinVersionKey = some v → isValidTLSProtocolVersion v = false →
      ∀ cfg, downstreamTLSParse splitNN isValidCipher a objectNs = .ok (some cfg) →
        cfg.tlsMinVersion = "") ∧
    (a tlsMaxVersionKey = some w → isValidTLSProtocolVersion w = false →
      ∀ cfg, downstreamTLSParse splitNN isValidCipher a objectNs = .ok (some cfg) →
        cfg.tlsMaxVersion = "") := by
  refine ⟨?_, ?_, ?_⟩
  · unfold downstreamTLSParse
    split
    · exact ⟨none, rfl⟩
    · exact ⟨_, rfl⟩
  · intro hv hbad cfg hok
    have hneed : needDownstreamTLS a = true := by
      unfold needDownstreamTLS hasKey
      rw [hv]
      simp
    unfold downstreamTLSParse at hok
    rw [hneed] at hok
    simp only [Bool.true_eq_false, if_false] at hok
    have hcfg :
        applyCipherStep isValidCipher a
            (applyTLSMaxStep a (applyTLSMinStep a
              (applyAuthTLSSecretStep splitNN a objectNs initialDownstreamTLSConfig))) = cfg := by
      have h2 := hok
      simp only [Except.ok.injEq, Option.some.injEq] at h2
      exact h2
    rw [← hcfg]
    rw [applyCipherStep_min, applyTLSMaxStep_min,
      applyTLSMinStep_invalid a _ v hv hbad, applyAuthTLSSecretStep_min]
    rfl
  · intro hv hbad cfg hok
    have hneed : needDownstreamTLS a = true := by
      unfold needDownstreamTLS hasKey
      rw [hv]
      simp
    unfold downstreamTLSParse at hok
    rw [hneed] at hok
    simp only [Bool.true_eq_false, if_false] at hok
    have hcfg :
        applyCipherStep isValidCipher a
            (applyTLSMaxStep a (applyTLSMinStep a
              (applyAuthTLSSecretStep splitNN a objectNs initialDownstreamTLSConfig))) = cfg := by
      have h2 := hok
      simp only [Except.ok.injEq, Option.some.injEq] at h2
      exact h2
    rw [← hcfg]
    rw [applyCipherStep_max, applyTLSMaxStep_invalid a _ w hv hbad, applyTLSMinStep_max,
      applyAuthTLSSecretStep_max]
    rfl

/-- C8 witness: annotations with unrecognized min and max versions parse
without error, and both version fields stay unset. -/
theorem downstreamTLSParse_spec_witness :
    (∃ r, downstreamTLSParse splitNNC8 validCipherC8 aC8 "default" = .ok r) ∧
    initialDownstreamTLSConfig.tlsMinVersion = "" ∧
    initialDownstreamTLSConfig.tlsMaxVersion = "" :=
  ⟨(downstreamTLSParse_spec splitNNC8 validCipherC8 aC8 "default" "TLSv9.9" "SSLv3").1,
   (downstreamTLSParse_spec splitNNC8 validCipherC8 aC8 "default" "TLSv9.9" "SSLv3").2.1
     (by decide) (by decide) initialDownstreamTLSConfig rfl,
   (downstreamTLSParse_spec splitNNC8 validCipherC8 aC8 "default" "TLSv9.9" "SSLv3").2.2
     (by decide) (by decide) initialDownstreamTLSConfig rfl⟩

/-- C9: registering a handler for a kind outside the four supported kinds
is a complete no-op — no handler list changes and nothing is forwarded
to any per-cluster adapter. -/
theorem RegisterEventHandler_frame (m : IngressConfig) (k : GroupVersionKind)
    (f : EventHandler) (h : supportedKind k = false) :
    RegisterEventHandler m k f = m := by
  cases k with
  | Gateway => simp [supportedKind] at h
  | VirtualService => simp [supportedKind] at h
  | DestinationRule => simp [supportedKind] at h
  | EnvoyFilter => simp [supportedKind] at h
  | other s =>
      unfold RegisterEventHandler
      rw [if_pos]
      exact ⟨by simp, by simp, by simp, by simp⟩

/-- C9 witness: registering a handler for an unknown kind leaves a state
with an adapter and existing handlers untouched. -/
theorem RegisterEventHandler_frame_witness :
    RegisterEventHandler mC9 (.other "WasmPlugin") 3 = mC9 :=
  RegisterEventHandler_frame mC9 (.other "WasmPlugin") 3 rfl

/-- C10: with no registered per-cluster adapters, `HasSynced` returns true
(the every-adapter-synced condition holds vacuously). -/
theorem HasSynced_vacuous (m : IngressConfig) (h : m.remoteIngressControllers = []) :
    HasSynced m = true := by
  unfold HasSynced
  rw [h]
  rfl

/-- C10 witness: the empty engine state reports synced. -/
theorem HasSynced_vacuous_witness : HasSynced emptyIngressConfig = true :=
  HasSynced_vacuous emptyIngressConfig rfl

end Higress
